import Mathlib

/-!
Verification of the entwine point-cloud indexing core against its source:
src/entwine/tree/branch.cpp and src/entwine/tree/sleepy-tree.cpp.

Machine integers (std::size_t) are modelled as Nat with explicit reduction
modulo 2 ^ 64 wherever the C++ arithmetic can overflow.  Collaborators that
are not part of the two source files (BBox, Schema, Registry, Roller, the
JSON library) are modelled from the specification, each marked in its doc
comment.
-/

/-- Modulus of the 64-bit unsigned size_t arithmetic used throughout the
source: values live in the interval from 0 to 2 ^ 64 - 1 and overflow wraps. -/
def SIZE_T_MOD : Nat := 2 ^ 64

/-- Translation of the anonymous-namespace helper getOffset in
src/entwine/tree/branch.cpp (lines 17-27): offset starts at 0 and the loop
applies offset = (offset << dimensions) + 1 once per level up to the given
depth.  The left shift on size_t is multiplication by 2 ^ dimensions reduced
modulo 2 ^ 64; the loop body does not depend on the loop counter, so the
depth-fold is written as structural recursion on depth. -/
def getOffset : Nat → Nat → Nat
  | 0, _ => 0
  | depth + 1, dimensions => (getOffset depth dimensions * 2 ^ dimensions + 1) % SIZE_T_MOD

/-- Written from the specification words only, for comparison with getOffset:
the unbounded linear address recurrence Addr(0) = 0, Addr(i+1) = Addr(i) * 2^D + 1,
with no machine-width reduction. -/
def addrSpec : Nat → Nat → Nat
  | 0, _ => 0
  | depth + 1, dimensions => addrSpec depth dimensions * 2 ^ dimensions + 1

/-- Translation of the Branch data (src/entwine/tree/branch.cpp): depth bounds
and the index bounds derived from them.  The m_schema member is a reference to
the external schema collaborator and plays no part in any branch operation in
the source file, so it is not modelled. -/
structure Branch where
  m_depthBegin : Nat
  m_depthEnd : Nat
  m_indexBegin : Nat
  m_indexEnd : Nat
  deriving DecidableEq

/-- Accessor Branch::depthBegin (line 77). -/
def Branch.depthBegin (b : Branch) : Nat := b.m_depthBegin

/-- Accessor Branch::depthEnd (line 82). -/
def Branch.depthEnd (b : Branch) : Nat := b.m_depthEnd

/-- Accessor Branch::indexBegin (line 87). -/
def Branch.indexBegin (b : Branch) : Nat := b.m_indexBegin

/-- Accessor Branch::indexEnd (line 92). -/
def Branch.indexEnd (b : Branch) : Nat := b.m_indexEnd

/-- Translation of the explicit Branch constructor (lines 33-43): stores the
depth bounds and derives both index bounds through getOffset. -/
def Branch.ofDepths (dimensions depthBegin depthEnd : Nat) : Branch :=
  { m_depthBegin := depthBegin
    m_depthEnd := depthEnd
    m_indexBegin := getOffset depthBegin dimensions
    m_indexEnd := getOffset depthEnd dimensions }

/-- Model of the JSON metadata node a Branch writes and reads: the source
stores exactly the two members depthBegin and depthEnd (lines 66-67) and no
index bound.  An absent member is none; JsonCpp reads an absent member as a
null value. -/
structure BranchMeta where
  depthBegin : Option Nat := none
  depthEnd : Option Nat := none
  deriving DecidableEq

/-- Model of JsonCpp Value::asUInt64 as used on metadata members: a present
integer member yields its value, a null (absent) member yields 0. -/
def asUInt64 : Option Nat → Nat
  | none => 0
  | some n => n

/-- Translation of the metadata Branch constructor (lines 45-54): reads the
depth bounds with asUInt64 and re-derives both index bounds through
getOffset, exactly as the explicit constructor does. -/
def Branch.ofMeta (dimensions : Nat) (meta : BranchMeta) : Branch :=
  Branch.ofDepths dimensions (asUInt64 meta.depthBegin) (asUInt64 meta.depthEnd)

/-- Translation of Branch::accepts (lines 59-62): index >= m_indexBegin and
index < m_indexEnd. -/
def Branch.accepts (b : Branch) (index : Nat) : Bool :=
  decide (index ≥ b.m_indexBegin) && decide (index < b.m_indexEnd)

/-- Translation of the metadata part of Branch::save (lines 64-70): writes
m_depthBegin and m_depthEnd into the supplied metadata node and returns it.
The subsequent saveImpl call delegates physical persistence to the tier
strategy, which lives outside the source files and writes no further member
of this node. -/
def Branch.save (b : Branch) (path : String) (meta : BranchMeta) : BranchMeta :=
  { meta with depthBegin := some b.m_depthBegin, depthEnd := some b.m_depthEnd }

/-- Translation of Branch::size (lines 97-100): m_indexEnd - m_indexBegin in
size_t arithmetic, which wraps modulo 2 ^ 64 when m_indexEnd < m_indexBegin. -/
def Branch.size (b : Branch) : Nat :=
  (SIZE_T_MOD + b.m_indexEnd - b.m_indexBegin) % SIZE_T_MOD

/-- Point coordinates.  The source reads them as doubles from the external
buffer collaborator; the tree logic only ever passes them to the external
containment test, so the coordinate type is modelled as Int, which keeps
every definition executable without touching floating-point semantics. -/
structure Point where
  x : Int
  y : Int
  deriving DecidableEq

/-- Modelled from the spec: the bounding-box collaborator
(entwine/types/bbox is not under src/) is used by the tree core only through
its point-containment test, so a BBox is modelled by that test. -/
structure BBox where
  containsFn : Point → Bool

/-- Modelled from the spec: BBox::contains, the point-containment test of the
external geometry collaborator. -/
def BBox.contains (b : BBox) (p : Point) : Bool := b.containsFn p

/-- Modelled from the spec: BBox::fromJson applied to a null document (the
external collaborator decides this value; no claim depends on it). -/
def BBox.fromNullJson : BBox := { containsFn := fun _ => false }

/-- Modelled from the spec: the schema collaborator (entwine/types/schema is
not under src/) is opaque to the indexing logic, so it is modelled as an
opaque token. -/
structure Schema where
  layoutId : Nat
  deriving DecidableEq

/-- Modelled from the spec: Schema::fromJson applied to a null document. -/
def Schema.fromNullJson : Schema := { layoutId := 0 }

/-- Modelled from the spec: a PointInfo is a Point plus its Origin tag (the
integer identifying the ingestion batch); the reference into the owning
attribute buffer is abstracted to the sample coordinates it denotes. -/
structure PointInfo where
  point : Point
  origin : Nat
  deriving DecidableEq

/-- Modelled from the spec: the Roller traversal cursor
(entwine/tree/roller is not under src/) carries a bbox, a depth and a node
index. -/
structure Roller where
  bbox : BBox
  depth : Nat
  index : Nat

/-- Modelled from the spec: a fresh Roller at the root carries the root bbox,
depth 0 and node index 0; this is what Roller(*m_bbox) constructs in
SleepyTree::insert. -/
def Roller.atRoot (b : BBox) : Roller := { bbox := b, depth := 0, index := 0 }

/-- Modelled from the spec: the Registry (entwine/tree/registry is not under
src/) owns the three tier-boundary depths it was constructed with and the
multiset of stored PointInfos, here kept as a list. -/
structure Registry where
  baseDepth : Nat
  flatDepth : Nat
  diskDepth : Nat
  points : List PointInfo

/-- Modelled from the spec: the Registry constructor takes the schema and the
three tier depths and starts with no stored point. -/
def Registry.create (schema : Schema) (baseDepth flatDepth diskDepth : Nat) : Registry :=
  { baseDepth := baseDepth
    flatDepth := flatDepth
    diskDepth := diskDepth
    points := [] }

/-- Modelled from the spec: Registry::put places the candidate PointInfo via
the single-occupant displacement protocol starting at the given Roller;
points are moved, never duplicated, so the stored collection gains exactly
the candidate. -/
def Registry.put (r : Registry) (pointInfo : PointInfo) (roller : Roller) : Registry :=
  { r with points := r.points ++ [pointInfo] }

/-- Modelled from the spec: Registry::save writes the branch records (their
stored physical data) into the registry subtree of the metadata document. -/
def Registry.saveMeta (r : Registry) : List PointInfo := r.points

/-- Modelled from the spec: Registry::load restores each branch's physical
data from the registry subtree of the metadata document (a null subtree
restores nothing). -/
def Registry.loadMeta (r : Registry) (m : Option (List PointInfo)) : Registry :=
  { r with points := m.getD [] }

/-- Model of the JSON metadata document of SleepyTree::save and
SleepyTree::load.  A member the writer never set is none; JsonCpp hands an
absent member back as a null value.  The treeBaseDepth, treeFlatDepth and
treeDiskDepth fields model meta["tree"]["baseDepth"], ["flatDepth"] and
["diskDepth"].  External serializers (BBox::toJson/fromJson,
Schema::toJson/fromJson) are modelled as faithful, so the document stores the
values themselves. -/
structure JsonMeta where
  bbox : Option BBox := none
  schema : Option Schema := none
  treeBaseDepth : Option Nat := none
  treeFlatDepth : Option Nat := none
  treeDiskDepth : Option Nat := none
  registry : Option (List PointInfo) := none

/-- Translation of the SleepyTree data (src/entwine/tree/sleepy-tree.cpp). -/
structure SleepyTree where
  m_dir : String
  m_bbox : BBox
  m_schema : Schema
  m_numPoints : Nat
  m_registry : Registry

/-- Translation of the explicit SleepyTree constructor (lines 35-52): stores
dir, bbox and schema, starts the point counter at 0 and builds a fresh
Registry from the three tier depths. -/
def SleepyTree.create (dir : String) (bbox : BBox) (schema : Schema)
    (baseDepth flatDepth diskDepth : Nat) : SleepyTree :=
  { m_dir := dir
    m_bbox := bbox
    m_schema := schema
    m_numPoints := 0
    m_registry := Registry.create schema baseDepth flatDepth diskDepth }

/-- Translation of SleepyTree::metaPath (lines 198-201) for a directory. -/
def metaPathOf (dir : String) : String := dir ++ "/meta"

/-- Translation of SleepyTree::metaPath as a member: m_dir + "/meta". -/
def SleepyTree.metaPath (t : SleepyTree) : String := metaPathOf t.m_dir

/-- Translation of SleepyTree::getBounds (lines 140-143). -/
def SleepyTree.getBounds (t : SleepyTree) : BBox := t.m_bbox

/-- Translation of SleepyTree::numPoints (lines 182-185). -/
def SleepyTree.numPoints (t : SleepyTree) : Nat := t.m_numPoints

/-- Translation of SleepyTree::dir (lines 187-190). -/
def SleepyTree.dir (t : SleepyTree) : String := t.m_dir

/-- Translation of SleepyTree::insert (lines 67-91): for each sample of the
buffer in order, read its coordinates; if m_bbox contains the point, build a
PointInfo carrying the origin tag, hand it to Registry::put together with a
fresh Roller at the root, and increment m_numPoints; otherwise do nothing for
that sample.  The point counter is a size_t, but 2 ^ 64 increments are not
reachable by any sequence of calls, so the counter is a plain Nat. -/
def SleepyTree.insert (t : SleepyTree) (pointBuffer : List Point) (origin : Nat) : SleepyTree :=
  pointBuffer.foldl
    (fun acc point =>
      if acc.m_bbox.contains point then
        { acc with
          m_registry := acc.m_registry.put { point := point, origin := origin }
              (Roller.atRoot acc.m_bbox)
          m_numPoints := acc.m_numPoints + 1 }
      else acc)
    t

/-- Translation of SleepyTree::addMeta (lines 192-196): sets exactly the bbox
and schema members of the document. -/
def SleepyTree.addMeta (t : SleepyTree) (meta : JsonMeta) : JsonMeta :=
  { meta with bbox := some t.m_bbox, schema := some t.m_schema }

/-- Translation of the document assembly in SleepyTree::save (lines 95-97):
addMeta sets bbox and schema, then Registry::save fills the registry member.
No other member is written; in particular no tree member is ever set. -/
def SleepyTree.saveMeta (t : SleepyTree) : JsonMeta :=
  { SleepyTree.addMeta t {} with registry := some t.m_registry.saveMeta }

/-- Outcome of one file-system interaction. -/
inductive IOOutcome
  | ok
  | ioError
  deriving DecidableEq

/-- File-system operations relevant to metadata persistence.  The rename
constructor never occurs in the source; it exists so the atomic
write-temp-then-rename pattern of the specification can be expressed. -/
inductive FsOp
  | openTrunc (path : String)
  | write (data : String)
  | rename (source target : String)
  deriving DecidableEq

/-- File-system operations performed by SleepyTree::save (lines 99-108): it
opens the meta path itself with out|trunc and then writes the styled
metadata string to it.  metaString stands for jsonMeta.toStyledString(), the
external serializer's output. -/
def SleepyTree.saveFsOps (t : SleepyTree) (metaString : String) : List FsOp :=
  [FsOp.openTrunc t.metaPath, FsOp.write metaString]

/-- Written from the specification words only, for comparison with
saveFsOps: an operation sequence replaces the target atomically when it
never opens the target itself for truncation and installs the data by a
rename onto the target. -/
def atomicReplacePattern (ops : List FsOp) (target : String) : Bool :=
  (ops.all fun op =>
    match op with
    | FsOp.openTrunc p => p != target
    | _ => true)
  && (ops.any fun op =>
    match op with
    | FsOp.rename _ t => t == target
    | _ => false)

/-- Translation of the control flow of SleepyTree::save (lines 93-109) with
the stream outcomes made explicit: if opening the stream fails the function
throws "Could not open " plus the meta path; otherwise it writes the
document and returns.  The stream state after the write is never examined,
so the write outcome does not influence the result. -/
def SleepyTree.saveRun (t : SleepyTree) (openOutcome writeOutcome : IOOutcome) :
    Except String JsonMeta :=
  match openOutcome with
  | IOOutcome.ioError => Except.error ("Could not open " ++ t.metaPath)
  | IOOutcome.ok => Except.ok t.saveMeta

/-- Translation of the pure reconstruction in SleepyTree::load (lines
126-137) applied by a freshly constructed instance (lines 54-62): bbox and
schema come from the document (a null member decodes through the external
fromJson of a null value), a fresh Registry is built from the three members
of meta["tree"] read with asUInt64, and Registry::load restores the branch
data.  The constructor set m_numPoints to 0 and load never assigns it. -/
def SleepyTree.loadFromMeta (dir : String) (meta : JsonMeta) : SleepyTree :=
  { m_dir := dir
    m_bbox := meta.bbox.getD BBox.fromNullJson
    m_schema := meta.schema.getD Schema.fromNullJson
    m_numPoints := 0
    m_registry :=
      (Registry.create (meta.schema.getD Schema.fromNullJson)
        (asUInt64 meta.treeBaseDepth)
        (asUInt64 meta.treeFlatDepth)
        (asUInt64 meta.treeDiskDepth)).loadMeta meta.registry }

/-- Translation of the control flow of SleepyTree::load (lines 111-138) with
the stream outcomes made explicit: if opening the stream fails the function
throws "Could not open " plus the meta path; otherwise reader.parse runs and
its boolean result is discarded, so a failed parse leaves the document null
and load proceeds with it.  parsed is some document on parse success and
none on parse failure. -/
def SleepyTree.loadRun (dir : String) (openOutcome : IOOutcome)
    (parsed : Option JsonMeta) : Except String SleepyTree :=
  match openOutcome with
  | IOOutcome.ioError => Except.error ("Could not open " ++ metaPathOf dir)
  | IOOutcome.ok => Except.ok (SleepyTree.loadFromMeta dir (parsed.getD {}))

/-- Concrete bounding box over the integer square from (0,0) to (1,1), used
as a witness input. -/
def demoBBox : BBox :=
  { containsFn := fun p =>
      decide (0 ≤ p.x) && decide (p.x ≤ 1) && decide (0 ≤ p.y) && decide (p.y ≤ 1) }

/-- Concrete schema token used as a witness input. -/
def demoSchema : Schema := { layoutId := 1 }

/-- Concrete tree over demoBBox with tier depths (1, 2, 4), used as a witness
input. -/
def demoTree : SleepyTree := SleepyTree.create "d" demoBBox demoSchema 1 2 4

/-- demoTree after inserting one in-bounds point with origin 7. -/
def demoTree1 : SleepyTree := demoTree.insert [{ x := 0, y := 0 }] 7

/-! Helper lemmas shared by the claim theorems. -/

theorem SIZE_T_MOD_pos : 0 < SIZE_T_MOD := Nat.pow_pos (by norm_num)

theorem getOffset_lt (depth dims : Nat) : getOffset depth dims < SIZE_T_MOD := by
  cases depth with
  | zero => exact SIZE_T_MOD_pos
  | succ d => exact Nat.mod_lt _ SIZE_T_MOD_pos

theorem getOffset_succ (depth dims : Nat) :
    getOffset (depth + 1) dims = (getOffset depth dims * 2 ^ dims + 1) % SIZE_T_MOD := rfl

theorem wrap_sub_eq {a b : Nat} (hab : b ≤ a) (haM : a < SIZE_T_MOD) :
    (SIZE_T_MOD + a - b) % SIZE_T_MOD = a - b := by
  rw [Nat.add_sub_assoc hab, Nat.add_mod_left]
  exact Nat.mod_eq_of_lt (lt_of_le_of_lt (Nat.sub_le a b) haM)

theorem insert_fold_spec (pointBuffer : List Point) (t : SleepyTree) (origin : Nat) :
    (t.insert pointBuffer origin).m_numPoints
        = t.m_numPoints + (pointBuffer.filter (fun p => t.m_bbox.contains p)).length
    ∧ (t.insert pointBuffer origin).m_registry.points
        = t.m_registry.points
          ++ ((pointBuffer.filter (fun p => t.m_bbox.contains p)).map
              (fun p => PointInfo.mk p origin))
    ∧ (t.insert pointBuffer origin).m_bbox = t.m_bbox
    ∧ (t.insert pointBuffer origin).m_dir = t.m_dir
    ∧ (t.insert pointBuffer origin).m_schema = t.m_schema := by
  induction pointBuffer generalizing t with
  | nil => simp [SleepyTree.insert]
  | cons p rest ih =>
    by_cases h : t.m_bbox.contains p
    · have hstep : t.insert (p :: rest) origin
          = SleepyTree.insert
              { t with
                m_registry := t.m_registry.put { point := p, origin := origin }
                    (Roller.atRoot t.m_bbox)
                m_numPoints := t.m_numPoints + 1 } rest origin := by
        simp [SleepyTree.insert, h]
      obtain ⟨h1, h2, h3, h4, h5⟩ := ih
          { t with
            m_registry := t.m_registry.put { point := p, origin := origin }
                (Roller.atRoot t.m_bbox)
            m_numPoints := t.m_numPoints + 1 }
      rw [hstep]
      refine ⟨?_, ?_, ?_, ?_, ?_⟩
      · rw [h1]
        simp [List.filter_cons, h, Registry.put]
        omega
      · rw [h2]
        simp [List.filter_cons, h, Registry.put]
      · exact h3
      · exact h4
      · exact h5
    · have hstep : t.insert (p :: rest) origin = t.insert rest origin := by
        simp [SleepyTree.insert, h]
      obtain ⟨h1, h2, h3, h4, h5⟩ := ih t
      rw [hstep]
      refine ⟨?_, ?_, h3, h4, h5⟩
      · rw [h1]
        simp [List.filter_cons, h]
      · rw [h2]
        simp [List.filter_cons, h]

/-! Claim theorems. -/

/-- C1: at the failing input (demoTree with tier depths (1, 2, 4) and one
accepted insert), save followed by a fresh load on the same directory does
not reproduce the prior state: numPoints drops from 1 to 0, and the Registry
is rebuilt with tier depths read from the tree member of the document, a
member save never writes, so its baseDepth becomes 0 instead of 1.  The
bounds, by contrast, do round-trip. -/
theorem c1_saveLoad_divergence :
    demoTree1.numPoints = 1
    ∧ (SleepyTree.loadFromMeta "d" demoTree1.saveMeta).numPoints = 0
    ∧ demoTree1.saveMeta.treeBaseDepth = none
    ∧ demoTree1.m_registry.baseDepth = 1
    ∧ (SleepyTree.loadFromMeta "d" demoTree1.saveMeta).m_registry.baseDepth = 0
    ∧ (SleepyTree.loadFromMeta "d" demoTree1.saveMeta).getBounds = demoTree1.getBounds := by
  exact ⟨rfl, rfl, rfl, rfl, rfl, rfl⟩

/-- C2 counterexample: the recurrence Addr(i+1) = Addr(i) * 2^D + 1 fails on
the code at dimensionality 3 and depth 22 to 23, where the 64-bit
computation wraps. -/
theorem c2_recurrence_counterexample :
    getOffset 23 3 ≠ getOffset 22 3 * 2 ^ 3 + 1 := by decide

/-- C2 amended: getOffset satisfies Addr(0) = 0 and the recurrence reduced
modulo 2 ^ 64, Addr(i+1) = (Addr(i) * 2^D + 1) mod 2^64; whenever the step
does not overflow the exact recurrence holds; for dimensionality 2 the
values at depths 0 to 4 are 0, 1, 5, 21, 85. -/
theorem c2_addr_recurrence (i dims : Nat) :
    getOffset 0 dims = 0
    ∧ getOffset (i + 1) dims = (getOffset i dims * 2 ^ dims + 1) % SIZE_T_MOD
    ∧ (getOffset i dims * 2 ^ dims + 1 < SIZE_T_MOD →
        getOffset (i + 1) dims = getOffset i dims * 2 ^ dims + 1)
    ∧ getOffset 0 2 = 0 ∧ getOffset 1 2 = 1 ∧ getOffset 2 2 = 5
    ∧ getOffset 3 2 = 21 ∧ getOffset 4 2 = 85 := by
  refine ⟨rfl, getOffset_succ i dims, fun h => ?_, by decide, by decide, by decide,
    by decide, by decide⟩
  rw [getOffset_succ i dims]
  exact Nat.mod_eq_of_lt h

/-- Witness for c2_addr_recurrence at i = 3, dims = 2. -/
theorem c2_addr_recurrence_witness :
    getOffset 4 2 = getOffset 3 2 * 2 ^ 2 + 1 :=
  (c2_addr_recurrence 3 2).2.2.1 (by decide)

/-- C3: looping over the buffer, each sample is handled independently: an
out-of-bounds sample changes nothing, a contained sample becomes a PointInfo
tagged with the origin handed to Registry.put and bumps the counter by one,
so numPoints grows by exactly the number of contained samples, the stored
points grow by exactly their PointInfos in order, and the bounds are
untouched. -/
theorem c3_insert_spec (t : SleepyTree) (pointBuffer : List Point) (origin : Nat) :
    (t.insert pointBuffer origin).numPoints
        = t.numPoints + (pointBuffer.filter (fun p => t.getBounds.contains p)).length
    ∧ (t.insert pointBuffer origin).m_registry.points
        = t.m_registry.points
          ++ ((pointBuffer.filter (fun p => t.getBounds.contains p)).map
              (fun p => PointInfo.mk p origin))
    ∧ (t.insert pointBuffer origin).getBounds = t.getBounds := by
  obtain ⟨h1, h2, h3, _, _⟩ := insert_fold_spec pointBuffer t origin
  exact ⟨h1, h2, h3⟩

/-- C4 counterexample: at dimensionality 3 and depth 23 the code returns a
value that differs from the mathematical linear address: the 64-bit
computation wrapped silently, and the returned index is an ordinary number
carrying no report of the overflow. -/
theorem c4_overflow_counterexample : getOffset 23 3 ≠ addrSpec 23 3 := by decide

/-- C4 amended: getOffset carries no overflow guard at all; for every depth
and dimensionality it returns exactly the mathematical address reduced
modulo 2 ^ 64, silently wrapped, with no detection and no report. -/
theorem c4_silent_wrap (depth dims : Nat) :
    getOffset depth dims = addrSpec depth dims % SIZE_T_MOD := by
  induction depth with
  | zero => rfl
  | succ d ih =>
    rw [getOffset_succ, ih]
    have h : addrSpec d dims % SIZE_T_MOD * 2 ^ dims + 1
        ≡ addrSpec d dims * 2 ^ dims + 1 [MOD SIZE_T_MOD] :=
      Nat.ModEq.add_right 1 (Nat.ModEq.mul_right _ (Nat.mod_modEq _ _))
    calc (addrSpec d dims % SIZE_T_MOD * 2 ^ dims + 1) % SIZE_T_MOD
        = (addrSpec d dims * 2 ^ dims + 1) % SIZE_T_MOD := h
      _ = addrSpec (d + 1) dims % SIZE_T_MOD := by rw [addrSpec]

/-- C5: two branches built over depth ranges meeting at d1 chain gaplessly:
the indexEnd of the shallower branch equals the indexBegin of the deeper
one, and both equal getOffset d1. -/
theorem c5_branch_chaining (dims d0 d1 d2 : Nat) (hdims : 1 ≤ dims)
    (h01 : d0 < d1) (h12 : d1 < d2) :
    (Branch.ofDepths dims d0 d1).indexEnd = (Branch.ofDepths dims d1 d2).indexBegin
    ∧ (Branch.ofDepths dims d0 d1).indexEnd = getOffset d1 dims := ⟨rfl, rfl⟩

/-- Witness for c5_branch_chaining at dims = 2, depths 0 < 1 < 2. -/
theorem c5_branch_chaining_witness :
    (Branch.ofDepths 2 0 1).indexEnd = (Branch.ofDepths 2 1 2).indexBegin
    ∧ (Branch.ofDepths 2 0 1).indexEnd = getOffset 1 2 :=
  c5_branch_chaining 2 0 1 2 (by decide) (by decide) (by decide)

/-- C6: for a branch built from depth bounds, accepts holds exactly on the
half-open index interval, the index bounds are the addresses of the depth
bounds, and size is indexEnd - indexBegin (whenever the interval is
well-ordered, which keeps the size_t subtraction away from its wrap). -/
theorem c6_accepts_size (dims depthBegin depthEnd index : Nat) :
    ((Branch.ofDepths dims depthBegin depthEnd).accepts index = true
      ↔ (Branch.ofDepths dims depthBegin depthEnd).indexBegin ≤ index
        ∧ index < (Branch.ofDepths dims depthBegin depthEnd).indexEnd)
    ∧ (Branch.ofDepths dims depthBegin depthEnd).indexBegin = getOffset depthBegin dims
    ∧ (Branch.ofDepths dims depthBegin depthEnd).indexEnd = getOffset depthEnd dims
    ∧ ((Branch.ofDepths dims depthBegin depthEnd).indexBegin
          ≤ (Branch.ofDepths dims depthBegin depthEnd).indexEnd →
        (Branch.ofDepths dims depthBegin depthEnd).size
          = (Branch.ofDepths dims depthBegin depthEnd).indexEnd
            - (Branch.ofDepths dims depthBegin depthEnd).indexBegin) := by
  refine ⟨?_, rfl, rfl, fun h => ?_⟩
  · simp [Branch.accepts, Branch.indexBegin, Branch.indexEnd, ge_iff_le]
  · exact wrap_sub_eq h (getOffset_lt depthEnd dims)

/-- Witness for c6_accepts_size at dims = 2, depths (1, 2), index 3. -/
theorem c6_accepts_size_witness :
    ((Branch.ofDepths 2 1 2).accepts 3 = true
      ↔ (Branch.ofDepths 2 1 2).indexBegin ≤ 3 ∧ 3 < (Branch.ofDepths 2 1 2).indexEnd)
    ∧ (Branch.ofDepths 2 1 2).size
        = (Branch.ofDepths 2 1 2).indexEnd - (Branch.ofDepths 2 1 2).indexBegin :=
  ⟨(c6_accepts_size 2 1 2 3).1, (c6_accepts_size 2 1 2 3).2.2.2 (by decide)⟩

/-- C7: Branch persistence round-trips through the depth bounds alone: save
writes depthBegin and depthEnd into the metadata node (the node holds no
index bound at all), and reconstructing from that node under the same
dimensionality re-derives the very same branch, index bounds included. -/
theorem c7_branch_meta_roundtrip (dims depthBegin depthEnd : Nat)
    (path : String) (meta : BranchMeta) :
    Branch.ofMeta dims (Branch.save (Branch.ofDepths dims depthBegin depthEnd) path meta)
      = Branch.ofDepths dims depthBegin depthEnd
    ∧ (Branch.save (Branch.ofDepths dims depthBegin depthEnd) path meta).depthBegin
        = some depthBegin
    ∧ (Branch.save (Branch.ofDepths dims depthBegin depthEnd) path meta).depthEnd
        = some depthEnd := ⟨rfl, rfl, rfl⟩

/-- C8 counterexample: the operation sequence of save opens the meta path
itself with truncation and never renames onto it, so it does not match the
atomic write-temp-then-rename pattern; and a write failure after a
successful open still yields a successful save, so that I/O failure is
swallowed. -/
theorem c8_not_atomic_counterexample :
    atomicReplacePattern (demoTree.saveFsOps "meta-string") demoTree.metaPath = false
    ∧ demoTree.saveRun IOOutcome.ok IOOutcome.ioError = Except.ok demoTree.saveMeta := by
  exact ⟨rfl, rfl⟩

/-- C8 amended: save truncates the final meta path in place (open with
out|trunc, then one write; no temp file, no rename), so an interrupted save
can leave a truncated document; a failure to open the stream is surfaced as
an exception naming the path, but the stream state after the write is never
checked, so the result is success whenever the open succeeded, whatever the
write outcome. -/
theorem c8_save_behavior (t : SleepyTree) (metaString : String)
    (openOutcome writeOutcome : IOOutcome) :
    t.saveFsOps metaString = [FsOp.openTrunc t.metaPath, FsOp.write metaString]
    ∧ (openOutcome = IOOutcome.ioError →
        t.saveRun openOutcome writeOutcome
          = Except.error ("Could not open " ++ t.metaPath))
    ∧ (openOutcome = IOOutcome.ok →
        t.saveRun openOutcome writeOutcome = Except.ok t.saveMeta) := by
  refine ⟨rfl, fun h => ?_, fun h => ?_⟩
  · rw [h]; rfl
  · rw [h]; rfl

/-- Witness for c8_save_behavior at demoTree with a failed open. -/
theorem c8_save_behavior_witness :
    demoTree.saveRun IOOutcome.ioError IOOutcome.ok
      = Except.error ("Could not open " ++ demoTree.metaPath) :=
  (c8_save_behavior demoTree "m" IOOutcome.ioError IOOutcome.ok).2.1 rfl

/-- C9 counterexample: a metadata file that opens but does not parse is not
surfaced: load discards the parse result and succeeds with the null
document. -/
theorem c9_parse_failure_swallowed :
    SleepyTree.loadRun "d" IOOutcome.ok none
      = Except.ok (SleepyTree.loadFromMeta "d" {}) := rfl

/-- C9 amended: load throws "Could not open" with the meta path when the
metadata file cannot be opened; but after a successful open the boolean
result of reader.parse is discarded, so load succeeds whatever the parse
outcome, proceeding with the null document when the parse failed. -/
theorem c9_load_behavior (dir : String) (openOutcome : IOOutcome)
    (parsed : Option JsonMeta) :
    (openOutcome = IOOutcome.ioError →
        SleepyTree.loadRun dir openOutcome parsed
          = Except.error ("Could not open " ++ metaPathOf dir))
    ∧ (openOutcome = IOOutcome.ok →
        SleepyTree.loadRun dir openOutcome parsed
          = Except.ok (SleepyTree.loadFromMeta dir (parsed.getD {}))) := by
  refine ⟨fun h => ?_, fun h => ?_⟩
  · rw [h]; rfl
  · rw [h]; rfl

/-- Witness for c9_load_behavior at a failed open. -/
theorem c9_load_behavior_witness :
    SleepyTree.loadRun "d" IOOutcome.ioError none
      = Except.error ("Could not open " ++ metaPathOf "d") :=
  (c9_load_behavior "d" IOOutcome.ioError none).1 rfl

/-- C10: the point counter is not persisted: a tree reconstructed from any
metadata document reports numPoints 0, in particular one reconstructed from
the document any tree saved, whatever that tree had counted; the saved
document has no member for the counter (its fields are bbox, schema, the
tree depths and the registry subtree only). -/
theorem c10_numPoints_not_persisted (dir : String) (meta : JsonMeta) (t : SleepyTree) :
    (SleepyTree.loadFromMeta dir meta).numPoints = 0
    ∧ (SleepyTree.loadFromMeta t.m_dir t.saveMeta).numPoints = 0 := ⟨rfl, rfl⟩
